import Mathlib

/-!
Verification of the frozen-code generator (Tools/codegen/freeze.py).

The program walks a compiled code object and prints C static-initializer
text for three object kinds: byte buffers (PyBytesObject), ASCII strings
(PyUnicodeObject) and code objects (PyCodeObject).  We embed the program
shallowly: bytes are lists of naturals, Python strings are lists of
Unicode code points, the printer is a record of an indentation level and
the list of emitted lines, and Python exceptions (the assert in
generate_unicode) are modelled by an error component that, like a real
exception, propagates while the printer state (mutated in place in the
source) is kept.
-/

set_option maxHeartbeats 1000000

/-- A Python `bytes` value: a list of byte values (each `< 256` for real inputs). -/
abbrev PyBytes : Type := List Nat

/-- A Python `str` value: its list of Unicode code points. -/
abbrev PyStr : Type := List Nat

/-- UTF-8 encoding of a single code point, as in CPython's encoder; the
`errors="surrogatepass"` mode used by the source encodes surrogates like any
other three-byte code point, which is what the `c < 0x10000` branch does. -/
def utf8EncodeChar (c : Nat) : List Nat :=
  if c < 0x80 then [c]
  else if c < 0x800 then [0xc0 + c / 64, 0x80 + c % 64]
  else if c < 0x10000 then [0xe0 + c / 4096, 0x80 + (c / 64) % 64, 0x80 + c % 64]
  else [0xf0 + c / 262144, 0x80 + (c / 4096) % 64, 0x80 + (c / 64) % 64, 0x80 + c % 64]

/-- `s.encode("utf8", errors="surrogatepass")` from the source, line 74. -/
def utf8Encode (s : PyStr) : PyBytes :=
  (List.map utf8EncodeChar s).flatten

/-- `b.isascii()` (freeze.py line 13): every byte is below 0x80. -/
def pyBytesIsascii (b : PyBytes) : Bool :=
  List.all b (fun i => decide (i < 128))

/-- `b.decode("ascii")` (freeze.py lines 13-14): each byte becomes the character
with that code point.  Only reached when `b.isascii()` holds. -/
def asciiDecode (b : PyBytes) : String :=
  String.mk (List.map Char.ofNat b)

/-- CPython `str.isprintable`, restricted to strings of ASCII characters (the
only strings it is applied to here, always after an `isascii` guard): a
character below 0x80 is printable exactly when it is in `[0x20, 0x7e]`
(codes 0x00-0x1f and 0x7f are category Cc); the empty string is printable. -/
def pyStrIsPrintable (s : String) : Bool :=
  List.all s.data (fun c => decide (32 ≤ c.toNat) && decide (c.toNat ≤ 126))

/-- The branch condition of `make_string_literal` (freeze.py line 13):
`b.isascii() and b.decode("ascii").isprintable()`. -/
def verbatimCond (b : PyBytes) : Bool :=
  pyBytesIsascii b && pyStrIsPrintable (asciiDecode b)

/-- The Python format `"\\x" + format(i, "02x")` used at freeze.py line 17, on
the domain `0 ≤ i < 256` of a byte: exactly two lowercase hex digits. -/
def pyHex02 (i : Nat) : String :=
  String.mk [Nat.digitChar (i / 16), Nat.digitChar (i % 16)]

/-- `make_string_literal` (freeze.py lines 11-19): a double quote, then either
the bytes decoded verbatim (when all are printable ASCII) or each byte as a
`\xNN` escape, then a closing double quote, joined into one string. -/
def make_string_literal (b : PyBytes) : String :=
  let res : List String :=
    ["\""] ++
      (if verbatimCond b then [asciiDecode b]
       else List.map (fun i => "\\x" ++ pyHex02 i) b) ++
    ["\""]
  String.join res

/-- The one Python exception the modelled fragment can raise: the `assert` in
`generate_unicode` (freeze.py line 75).  The spec calls this failure
UnsupportedEncodingError. -/
inductive PyErr where
  | assertionError
deriving DecidableEq, Repr

/-- The printer state (freeze.py lines 23-25): the indentation level and the
lines written so far to the output file (each line stored without its
trailing newline). -/
structure Printer where
  level : Nat
  file : List String
deriving DecidableEq, Repr

/-- An emission step: Python methods mutate `self` in place and may raise; we
model them as functions from the printer state to the new state together with
either a result or the exception that escaped. -/
def EmitM (α : Type) : Type := Printer → Printer × Except PyErr α

def EmitM.pureAux (a : α) : EmitM α := fun p => (p, Except.ok a)

def EmitM.bindAux (m : EmitM α) (f : α → EmitM β) : EmitM β := fun p =>
  match m p with
  | (p1, Except.ok a) => f a p1
  | (p1, Except.error e) => (p1, Except.error e)

instance : Monad EmitM where
  pure := EmitM.pureAux
  bind := EmitM.bindAux

/-- The indentation text `"    " * level` used at freeze.py line 39. -/
def pyIndent (n : Nat) : String :=
  String.join (List.replicate n "    ")

/-- `Printer.write` (freeze.py lines 38-39): appends one line, consisting of
the indentation for the current level followed by the argument. -/
def Printer.write (arg : String) : EmitM Unit := fun p =>
  ({ p with file := p.file ++ [pyIndent p.level ++ arg] }, Except.ok ())

/-- `Printer.indent` (freeze.py lines 29-36): saves the level, increments it,
runs the body, and — in a `finally`, so on the exception path too — restores
the saved level.  The file and the body's outcome pass through unchanged. -/
def Printer.indent (body : EmitM Unit) : EmitM Unit := fun p =>
  let r := body { p with level := p.level + 1 }
  ({ r.1 with level := p.level }, r.2)

/-- `Printer.block` (freeze.py lines 41-46): writes the prefix line with an
opening brace, runs the body one level deeper, and writes the closing brace
line with the suffix.  When the body raises, the exception propagates through
`indent` (which still restores the level) and the closing line is not
written, exactly as with the generator-based context manager. -/
def Printer.block (pre suf : String) (body : EmitM Unit) : EmitM Unit := do
  Printer.write (pre ++ " \x7b")
  Printer.indent body
  Printer.write ("\x7d" ++ suf)

/-- `Printer.object_head` (freeze.py lines 48-51). -/
def Printer.object_head (typename : String) : EmitM Unit :=
  Printer.block ".ob_base =" "," (do
    Printer.write ".ob_refcnt = 999999999,"
    Printer.write (".ob_type = &" ++ typename ++ ","))

/-- `Printer.object_var_head` (freeze.py lines 53-56). -/
def Printer.object_var_head (typename : String) (size : Nat) : EmitM Unit :=
  Printer.block ".ob_base =" "," (do
    Printer.object_head typename
    Printer.write (".ob_size = " ++ toString size ++ ","))

/-- The Python `assert` statement: raises AssertionError when the condition
fails, otherwise does nothing. -/
def pyAssert (c : Prop) [Decidable c] : EmitM Unit := fun p =>
  if c then (p, Except.ok ()) else (p, Except.error PyErr.assertionError)

/-- `Printer.generate_bytes` (freeze.py lines 61-71). -/
def Printer.generate_bytes (name : String) (b : PyBytes) : EmitM Unit := do
  Printer.write "static"
  Printer.indent
    (Printer.block "struct" "" (do
      Printer.write "PyObject_VAR_HEAD"
      Printer.write "Py_hash_t ob_shash;"
      Printer.write ("char ob_sval[" ++ toString (b.length + 1) ++ "];")))
  Printer.block (name ++ " =") ";" (do
    Printer.object_var_head "PyBytes_Type" (b.length + 1)
    Printer.write ".ob_shash = -1,"
    Printer.write (".ob_sval = " ++ make_string_literal b ++ ","))

/-- `Printer.generate_unicode` (freeze.py lines 73-91): encodes the string as
UTF-8, asserts the ASCII-compact invariant `len(s) == len(b)` (the assert
fires before anything is written), then emits the nested PyUnicodeObject
initializer. -/
def Printer.generate_unicode (name : String) (s : PyStr) : EmitM Unit := do
  let b := utf8Encode s
  pyAssert (s.length = b.length)
  Printer.block ("static PyUnicodeObject " ++ name ++ " =") ";" (do
    Printer.block "._base =" "," (do
      Printer.block "._base =" "," (do
        Printer.object_head "PyUnicode_Type"
        Printer.write (".length = " ++ toString s.length ++ ",")
        Printer.write ".hash = -1,"
        Printer.block ".state =" "," (do
          Printer.write ".kind = 1,"
          Printer.write ".compact = 1,"
          Printer.write ".ready = 1,"))
      Printer.write (".utf8_length = " ++ toString b.length ++ ",")
      Printer.write (".utf8 = " ++ make_string_literal b ++ ",")
      Printer.write (".wstr_length = " ++ toString s.length ++ ",")))

/-- The fields of a Python code object that freeze.py reads (`co_code`,
`co_name` and the six scalar fields fetched by `self.field`). -/
structure CodeType where
  co_code : PyBytes
  co_name : PyStr
  co_flags : Int
  co_argcount : Int
  co_posonlyargcount : Int
  co_kwonlyargcount : Int
  co_stacksize : Int
  co_firstlineno : Int
deriving DecidableEq, Repr

/-- `Printer.field` (freeze.py lines 58-59): `self.field(obj, name)` writes
`.(name) = (value),` using the attribute value fetched from the object; we
pass the field's name and value explicitly. -/
def Printer.fieldLine (name : String) (v : Int) : EmitM Unit :=
  Printer.write ("." ++ name ++ " = " ++ toString v ++ ",")

/-- `Printer.generate_code` (freeze.py lines 93-105): first the bytecode
buffer under `name_code`, then the name string under `name_name`, then the
code object itself referencing both. -/
def Printer.generate_code (name : String) (code : CodeType) : EmitM Unit := do
  Printer.generate_bytes (name ++ "_code") code.co_code
  Printer.generate_unicode (name ++ "_name") code.co_name
  Printer.block ("struct PyCodeObject " ++ name ++ " =") ";" (do
    Printer.object_head "PyCode_Type"
    Printer.fieldLine "co_flags" code.co_flags
    Printer.fieldLine "co_argcount" code.co_argcount
    Printer.fieldLine "co_posonlyargcount" code.co_posonlyargcount
    Printer.fieldLine "co_kwonlyargcount" code.co_kwonlyargcount
    Printer.fieldLine "co_stacksize" code.co_stacksize
    Printer.fieldLine "co_firstlineno" code.co_firstlineno
    Printer.write (".co_code = (PyObject *) &" ++ name ++ "_code,")
    Printer.write (".co_name = (PyObject *) &" ++ name ++ "_name,"))

/-!  Expected-output templates: the exact lines each generator emits, written
out explicitly so that ordering and field-layout claims can be read off. -/

/-- The four lines `object_head` emits at indentation level `lvl`. -/
def objectHeadLines (typename : String) (lvl : Nat) : List String :=
  [pyIndent lvl ++ ".ob_base = \x7b",
   pyIndent (lvl+1) ++ ".ob_refcnt = 999999999,",
   pyIndent (lvl+1) ++ ".ob_type = &" ++ typename ++ ",",
   pyIndent lvl ++ "\x7d,"]

/-- The lines `object_var_head` emits at indentation level `lvl`. -/
def objectVarHeadLines (typename : String) (size : Nat) (lvl : Nat) : List String :=
  [pyIndent lvl ++ ".ob_base = \x7b"] ++
  objectHeadLines typename (lvl+1) ++
  [pyIndent (lvl+1) ++ ".ob_size = " ++ toString size ++ ",",
   pyIndent lvl ++ "\x7d,"]

/-- The lines `generate_bytes name b` emits at indentation level `lvl`. -/
def bytesDeclLines (name : String) (b : PyBytes) (lvl : Nat) : List String :=
  [pyIndent lvl ++ "static",
   pyIndent (lvl+1) ++ "struct \x7b",
   pyIndent (lvl+2) ++ "PyObject_VAR_HEAD",
   pyIndent (lvl+2) ++ "Py_hash_t ob_shash;",
   pyIndent (lvl+2) ++ "char ob_sval[" ++ toString (b.length+1) ++ "];",
   pyIndent (lvl+1) ++ "\x7d",
   pyIndent lvl ++ name ++ " = \x7b"] ++
  objectVarHeadLines "PyBytes_Type" (b.length+1) (lvl+1) ++
  [pyIndent (lvl+1) ++ ".ob_shash = -1,",
   pyIndent (lvl+1) ++ ".ob_sval = " ++ make_string_literal b ++ ",",
   pyIndent lvl ++ "\x7d;"]

/-- The lines `generate_unicode name s` emits at indentation level `lvl`
when the ASCII-compact assert passes. -/
def unicodeDeclLines (name : String) (s : PyStr) (lvl : Nat) : List String :=
  [pyIndent lvl ++ "static PyUnicodeObject " ++ name ++ " = \x7b",
   pyIndent (lvl+1) ++ "._base = \x7b",
   pyIndent (lvl+2) ++ "._base = \x7b"] ++
  objectHeadLines "PyUnicode_Type" (lvl+3) ++
  [pyIndent (lvl+3) ++ ".length = " ++ toString s.length ++ ",",
   pyIndent (lvl+3) ++ ".hash = -1,",
   pyIndent (lvl+3) ++ ".state = \x7b",
   pyIndent (lvl+4) ++ ".kind = 1,",
   pyIndent (lvl+4) ++ ".compact = 1,",
   pyIndent (lvl+4) ++ ".ready = 1,",
   pyIndent (lvl+3) ++ "\x7d,",
   pyIndent (lvl+2) ++ "\x7d,",
   pyIndent (lvl+2) ++ ".utf8_length = " ++ toString (utf8Encode s).length ++ ",",
   pyIndent (lvl+2) ++ ".utf8 = " ++ make_string_literal (utf8Encode s) ++ ",",
   pyIndent (lvl+2) ++ ".wstr_length = " ++ toString s.length ++ ",",
   pyIndent (lvl+1) ++ "\x7d,",
   pyIndent lvl ++ "\x7d;"]

/-- The lines the `PyCodeObject` declaration itself contributes (after the
two referenced leaf objects have been emitted), at indentation level `lvl`. -/
def codeOwnDeclLines (name : String) (code : CodeType) (lvl : Nat) : List String :=
  [pyIndent lvl ++ "struct PyCodeObject " ++ name ++ " = \x7b"] ++
  objectHeadLines "PyCode_Type" (lvl+1) ++
  [pyIndent (lvl+1) ++ ".co_flags = " ++ toString code.co_flags ++ ",",
   pyIndent (lvl+1) ++ ".co_argcount = " ++ toString code.co_argcount ++ ",",
   pyIndent (lvl+1) ++ ".co_posonlyargcount = " ++ toString code.co_posonlyargcount ++ ",",
   pyIndent (lvl+1) ++ ".co_kwonlyargcount = " ++ toString code.co_kwonlyargcount ++ ",",
   pyIndent (lvl+1) ++ ".co_stacksize = " ++ toString code.co_stacksize ++ ",",
   pyIndent (lvl+1) ++ ".co_firstlineno = " ++ toString code.co_firstlineno ++ ",",
   pyIndent (lvl+1) ++ ".co_code = (PyObject *) &" ++ name ++ "_code,",
   pyIndent (lvl+1) ++ ".co_name = (PyObject *) &" ++ name ++ "_name,",
   pyIndent lvl ++ "\x7d;"]


/-- The reference-count line every object header carries, at level `lvl`. -/
def refcntLine (lvl : Nat) : String :=
  pyIndent lvl ++ ".ob_refcnt = 999999999,"

/-- Convenience: a Lean string literal as a Python `str` (its code points). -/
def toPyStr (s : String) : PyStr :=
  List.map Char.toNat s.data

/-- A concrete code object for witnesses: the result of compiling `"pass"`
(bytecode `LOAD_CONST None; RETURN_VALUE`, name `<module>`). -/
def sampleCode : CodeType :=
  ⟨[100, 0, 83, 0], toPyStr "<module>", 64, 0, 0, 0, 1, 1⟩


/-!  A model of the host C compiler's string-literal semantics (C17 6.4.4.4,
6.4.5, 6.7.9): the value of a `"..."` literal is the list of byte values of
its characters after escape processing, hex escapes taking as many hex
digits as follow (maximal munch) and being a constraint violation outside
the range of `unsigned char`, octal escapes taking up to three octal
digits; initializing a `char` array of size `n` from a literal of `m ≤ n`
content bytes stores those bytes and zero-fills the remaining `n - m`
elements (one of which is the literal's implicit terminator).  Plain
characters stand for their own code (ASCII execution character set; the
generator only ever emits ASCII).  `none` marks text a C compiler rejects. -/

/-- Value of a hexadecimal digit character, if it is one. -/
def hexVal (c : Char) : Option Nat :=
  if 48 <= c.toNat && c.toNat <= 57 then some (c.toNat - 48)
  else if 97 <= c.toNat && c.toNat <= 102 then some (c.toNat - 87)
  else if 65 <= c.toNat && c.toNat <= 70 then some (c.toNat - 55)
  else none

/-- Value of an octal digit character, if it is one. -/
def octValOf (c : Char) : Option Nat :=
  if 48 <= c.toNat && c.toNat <= 55 then some (c.toNat - 48) else none

/-- Maximal munch of hexadecimal digits. -/
def splitHex : List Char -> List Char × List Char
  | [] => ([], [])
  | c :: cs =>
    if (hexVal c).isSome then
      let r := splitHex cs
      (c :: r.1, r.2)
    else ([], c :: cs)

/-- The value of a run of hexadecimal digits. -/
def hexListVal (ds : List Char) : Nat :=
  List.foldl (fun a c => a * 16 + (hexVal c).getD 0) 0 ds

/-- Munch of at most `k` octal digits. -/
def splitOct : Nat -> List Char -> List Char × List Char
  | 0, cs => ([], cs)
  | _ + 1, [] => ([], [])
  | k + 1, c :: cs =>
    if (octValOf c).isSome then
      let r := splitOct k cs
      (c :: r.1, r.2)
    else ([], c :: cs)

/-- The value of a run of octal digits. -/
def octListVal (ds : List Char) : Nat :=
  List.foldl (fun a c => a * 8 + (octValOf c).getD 0) 0 ds

/-- The single-character escape sequences of C and their byte values. -/
def simpleEscVal (c : Char) : Option Nat :=
  if c = Char.ofNat 39 then some 39
  else if c = '"' then some 34
  else if c = '?' then some 63
  else if c = '\\' then some 92
  else if c = 'a' then some 7
  else if c = 'b' then some 8
  else if c = 'f' then some 12
  else if c = 'n' then some 10
  else if c = 'r' then some 13
  else if c = 't' then some 9
  else if c = 'v' then some 11
  else none

/-- Parses the characters after the opening quote of a C string literal up to
and including the closing quote, yielding the content byte values.  The fuel
argument only bounds recursion depth; each step consumes at least one
character, so `length + 1` fuel always suffices. -/
def parseLit : Nat -> List Char -> Option (List Nat)
  | 0, _ => none
  | _ + 1, [] => none
  | fuel + 1, c :: cs =>
    if c = '"' then
      if cs = [] then some [] else none
    else if c = '\\' then
      match cs with
      | [] => none
      | e :: cs2 =>
        if e = 'x' then
          let r := splitHex cs2
          if r.1 = [] then none
          else if hexListVal r.1 < 256 then
            Option.map (fun t => hexListVal r.1 :: t) (parseLit fuel r.2)
          else none
        else if (octValOf e).isSome then
          let r := splitOct 3 (e :: cs2)
          if octListVal r.1 < 256 then
            Option.map (fun t => octListVal r.1 :: t) (parseLit fuel r.2)
          else none
        else
          match simpleEscVal e with
          | some v => Option.map (fun t => v :: t) (parseLit fuel cs2)
          | none => none
    else
      Option.map (fun t => c.toNat :: t) (parseLit fuel cs)

/-- The content bytes of a C string literal, or `none` if it is ill-formed. -/
def parseCStringLiteral (s : String) : Option (List Nat) :=
  match s.data with
  | c :: cs => if c = '"' then parseLit (cs.length + 1) cs else none
  | [] => none

/-- The bytes stored in `char a[n] = lit;`: the literal's content followed by
zero fill (including the implicit terminator), or `none` if the literal is
ill-formed or its content does not fit. -/
def cCharArrayInit (n : Nat) (lit : String) : Option (List Nat) :=
  match parseCStringLiteral lit with
  | none => none
  | some bs =>
    if bs.length <= n then some (bs ++ List.replicate (n - bs.length) 0) else none

/-- The four characters of one `\xNN` escape as emitted for byte `i`. -/
def escChunk (i : Nat) : List Char :=
  ['\\', 'x', Nat.digitChar (i / 16), Nat.digitChar (i % 16)]

/-- The form C2 claims for all-printable-ASCII input: the bytes verbatim
inside quote delimiters. -/
def quotedVerbatim (b : PyBytes) : String :=
  String.mk ('"' :: (List.map Char.ofNat b ++ ['"']))

/-- The form C2 claims otherwise: every byte as a two-digit lowercase hex
escape, inside quote delimiters, with no verbatim runs. -/
def quotedAllEscaped (b : PyBytes) : String :=
  String.mk ('"' :: ((List.map escChunk b).flatten ++ ['"']))

/-! ## Theorems -/

/-- Running a bound computation: first step, then continuation, with
exceptions short-circuiting and the printer state kept. -/
theorem EmitM.run_bind (m : EmitM α) (f : α → EmitM β) (p : Printer) :
    (Bind.bind m f) p =
      (match m p with
       | (p1, Except.ok a) => f a p1
       | (p1, Except.error e) => (p1, Except.error e)) := rfl

theorem Printer.write_run (s : String) (p : Printer) :
    Printer.write s p =
      ({ p with file := p.file ++ [pyIndent p.level ++ s] }, Except.ok ()) := rfl

/-- `object_head` always succeeds and appends exactly its four header lines. -/
theorem Printer.object_head_run (tn : String) (p : Printer) :
    Printer.object_head tn p =
      ({ p with file := p.file ++ objectHeadLines tn p.level }, Except.ok ()) := by
  simp [Printer.object_head, Printer.block, Printer.indent, EmitM.run_bind,
    Printer.write_run, objectHeadLines, List.append_assoc, String.append_assoc]

/-- `object_var_head` always succeeds and appends exactly its header lines. -/
theorem Printer.object_var_head_run (tn : String) (n : Nat) (p : Printer) :
    Printer.object_var_head tn n p =
      ({ p with file := p.file ++ objectVarHeadLines tn n p.level }, Except.ok ()) := by
  simp [Printer.object_var_head, Printer.block, Printer.indent, EmitM.run_bind,
    Printer.write_run, Printer.object_head_run, objectVarHeadLines, List.append_assoc, String.append_assoc]

/-- `generate_bytes` always succeeds and appends exactly `bytesDeclLines`. -/
theorem Printer.generate_bytes_run (name : String) (b : PyBytes) (p : Printer) :
    Printer.generate_bytes name b p =
      ({ p with file := p.file ++ bytesDeclLines name b p.level }, Except.ok ()) := by
  simp [Printer.generate_bytes, Printer.block, Printer.indent, EmitM.run_bind,
    Printer.write_run, Printer.object_var_head_run, bytesDeclLines, List.append_assoc, String.append_assoc]

/-- `generate_unicode` on an ASCII-compact string succeeds and appends
exactly `unicodeDeclLines`. -/
theorem Printer.generate_unicode_run (name : String) (s : PyStr)
    (h : s.length = (utf8Encode s).length) (p : Printer) :
    Printer.generate_unicode name s p =
      ({ p with file := p.file ++ unicodeDeclLines name s p.level }, Except.ok ()) := by
  simp [Printer.generate_unicode, Printer.block, Printer.indent, EmitM.run_bind,
    Printer.write_run, Printer.object_head_run, pyAssert, h,
    unicodeDeclLines, List.append_assoc, String.append_assoc]

/-- `generate_unicode` on a non-ASCII-compact string raises before writing
anything: the printer state is returned untouched. -/
theorem Printer.generate_unicode_fail (name : String) (s : PyStr)
    (h : s.length ≠ (utf8Encode s).length) (p : Printer) :
    Printer.generate_unicode name s p = (p, Except.error PyErr.assertionError) := by
  simp [Printer.generate_unicode, EmitM.run_bind, pyAssert, h]

/-- `generate_code` on a code object with ASCII-compact name succeeds and
appends the bytecode buffer declaration, then the name declaration, then the
code object declaration, in that order. -/
theorem Printer.generate_code_run (name : String) (code : CodeType)
    (h : code.co_name.length = (utf8Encode code.co_name).length) (p : Printer) :
    Printer.generate_code name code p =
      ({ p with file := p.file
          ++ bytesDeclLines (name ++ "_code") code.co_code p.level
          ++ unicodeDeclLines (name ++ "_name") code.co_name p.level
          ++ codeOwnDeclLines name code p.level }, Except.ok ()) := by
  simp [Printer.generate_code, Printer.block, Printer.indent, EmitM.run_bind,
    Printer.write_run, Printer.generate_bytes_run,
    Printer.generate_unicode_run _ _ h, Printer.object_head_run, Printer.fieldLine,
    codeOwnDeclLines, List.append_assoc, String.append_assoc]

/-- Helper for C9: `block` restores the depth counter on both exit paths. -/
theorem Printer.block_run_level (pre suf : String) (body : EmitM Unit) (p : Printer) :
    ((Printer.block pre suf body) p).1.level = p.level := by
  simp only [Printer.block, EmitM.run_bind, Printer.write_run, Printer.indent]
  rcases h : body { p with
      file := p.file ++ [pyIndent p.level ++ (pre ++ " \x7b")], level := p.level + 1 } with ⟨q, r⟩
  rcases r with e | a <;> simp [h, Printer.write_run]

/-- C9: entering an indentation scope (`indent` or `block`) at depth `d`
leaves the depth counter equal to `d` again after the scope exits, on every
exit path — including when the emission inside the scope fails with an
exception — and the scope exit itself changes no other field of the emission
context: the output sink and the body's outcome pass through unchanged. -/
theorem scoped_depth_restored (body : EmitM Unit) (pre suf : String) (p : Printer) :
    ((Printer.indent body) p).1.level = p.level ∧
    ((Printer.indent body) p).1.file = (body { p with level := p.level + 1 }).1.file ∧
    ((Printer.indent body) p).2 = (body { p with level := p.level + 1 }).2 ∧
    ((Printer.block pre suf body) p).1.level = p.level :=
  ⟨rfl, rfl, rfl, Printer.block_run_level pre suf body p⟩

/-- C3: serializing a string whose character count differs from its UTF-8
byte count fails with the assertion error (the spec's
UnsupportedEncodingError) and emits no initializer text at all: the printer
state comes back untouched. -/
theorem generate_unicode_rejects_non_ascii (name : String) (s : PyStr) (p : Printer)
    (h : s.length ≠ (utf8Encode s).length) :
    Printer.generate_unicode name s p = (p, Except.error PyErr.assertionError) :=
  Printer.generate_unicode_fail name s h p

theorem generate_unicode_rejects_non_ascii_witness :
    Printer.generate_unicode "x" [233] ⟨0, []⟩ = (⟨0, []⟩, Except.error PyErr.assertionError) :=
  generate_unicode_rejects_non_ascii "x" [233] ⟨0, []⟩ (by decide)

/-- C4: for every byte buffer of content length `L`, `generate_bytes`
declares the trailing array with size exactly `L + 1` and emits the
`ob_size` header field as exactly `L + 1`. -/
theorem generate_bytes_sizes (name : String) (b : PyBytes) (p : Printer) :
    (pyIndent (p.level + 2) ++ "char ob_sval[" ++ toString (b.length + 1) ++ "];")
      ∈ ((Printer.generate_bytes name b) p).1.file ∧
    (pyIndent (p.level + 2) ++ ".ob_size = " ++ toString (b.length + 1) ++ ",")
      ∈ ((Printer.generate_bytes name b) p).1.file := by
  rw [Printer.generate_bytes_run]
  constructor <;>
    simp +arith [bytesDeclLines, objectVarHeadLines, objectHeadLines,
      String.append_assoc]

/-- C7: for every ASCII-compact string (character count = UTF-8 byte count),
the emitted character-length, encoded-byte-length and wide-character-length
fields all equal the character count. -/
theorem generate_unicode_length_fields (name : String) (s : PyStr) (p : Printer)
    (h : s.length = (utf8Encode s).length) :
    (pyIndent (p.level + 3) ++ ".length = " ++ toString s.length ++ ",")
      ∈ ((Printer.generate_unicode name s) p).1.file ∧
    (pyIndent (p.level + 2) ++ ".utf8_length = " ++ toString s.length ++ ",")
      ∈ ((Printer.generate_unicode name s) p).1.file ∧
    (pyIndent (p.level + 2) ++ ".wstr_length = " ++ toString s.length ++ ",")
      ∈ ((Printer.generate_unicode name s) p).1.file := by
  rw [Printer.generate_unicode_run name s h]
  refine ⟨?_, ?_, ?_⟩ <;>
    simp +arith [unicodeDeclLines, objectHeadLines, String.append_assoc, ← h]

theorem generate_unicode_length_fields_witness :
    (pyIndent 3 ++ ".length = 8,")
      ∈ ((Printer.generate_unicode "toplevel_name" (toPyStr "toplevel")) ⟨0, []⟩).1.file ∧
    (pyIndent 2 ++ ".utf8_length = 8,")
      ∈ ((Printer.generate_unicode "toplevel_name" (toPyStr "toplevel")) ⟨0, []⟩).1.file ∧
    (pyIndent 2 ++ ".wstr_length = 8,")
      ∈ ((Printer.generate_unicode "toplevel_name" (toPyStr "toplevel")) ⟨0, []⟩).1.file :=
  generate_unicode_length_fields "toplevel_name" (toPyStr "toplevel") ⟨0, []⟩ (by decide)

/-- C8: every object the serializer emits — byte buffer, text object or code
object, whatever its name or content — carries in its header the same fixed
immortal reference count 999999999: the header emitter always writes it, and
each of the three generators' outputs contains it for every object emitted
(the code generator's output holds three: one per nested object and one for
the code object itself). -/
theorem emitted_objects_refcnt_sentinel (tn nb nu nc : String) (b : PyBytes) (s : PyStr)
    (code : CodeType) (p q r w : Printer)
    (hs : s.length = (utf8Encode s).length)
    (hc : code.co_name.length = (utf8Encode code.co_name).length) :
    ((Printer.object_head tn) w).1.file = w.file ++ objectHeadLines tn w.level ∧
    refcntLine (w.level + 1) ∈ objectHeadLines tn w.level ∧
    (∃ t, ((Printer.generate_bytes nb b) p).1.file = p.file ++ t ∧
      refcntLine (p.level + 3) ∈ t) ∧
    (∃ t, ((Printer.generate_unicode nu s) q).1.file = q.file ++ t ∧
      refcntLine (q.level + 4) ∈ t) ∧
    (∃ t, ((Printer.generate_code nc code) r).1.file = r.file ++ t ∧
      refcntLine (r.level + 2) ∈ t ∧ refcntLine (r.level + 3) ∈ t ∧
      refcntLine (r.level + 4) ∈ t) := by
  refine ⟨by rw [Printer.object_head_run], ?_, ?_, ?_, ?_⟩
  · simp +arith [objectHeadLines, refcntLine, String.append_assoc]
  · refine ⟨bytesDeclLines nb b p.level, by rw [Printer.generate_bytes_run], ?_⟩
    simp +arith [bytesDeclLines, objectVarHeadLines, objectHeadLines, refcntLine,
      String.append_assoc]
  · refine ⟨unicodeDeclLines nu s q.level, by rw [Printer.generate_unicode_run nu s hs], ?_⟩
    simp +arith [unicodeDeclLines, objectHeadLines, refcntLine, String.append_assoc]
  · refine ⟨bytesDeclLines (nc ++ "_code") code.co_code r.level
        ++ unicodeDeclLines (nc ++ "_name") code.co_name r.level
        ++ codeOwnDeclLines nc code r.level, ?_, ?_, ?_, ?_⟩
    · rw [Printer.generate_code_run nc code hc]
      simp [List.append_assoc]
    · simp +arith [codeOwnDeclLines, objectHeadLines, refcntLine, String.append_assoc]
    · simp +arith [bytesDeclLines, objectVarHeadLines, objectHeadLines, refcntLine,
        String.append_assoc]
    · simp +arith [unicodeDeclLines, objectHeadLines, refcntLine, String.append_assoc]

theorem emitted_objects_refcnt_sentinel_witness :
    ((Printer.object_head "PyBytes_Type") ⟨0, []⟩).1.file =
      ([] : List String) ++ objectHeadLines "PyBytes_Type" 0 ∧
    refcntLine 1 ∈ objectHeadLines "PyBytes_Type" 0 ∧
    (∃ t, ((Printer.generate_bytes "b" [1, 2]) ⟨0, []⟩).1.file = ([] : List String) ++ t ∧
      refcntLine 3 ∈ t) ∧
    (∃ t, ((Printer.generate_unicode "u" (toPyStr "hi")) ⟨0, []⟩).1.file =
      ([] : List String) ++ t ∧ refcntLine 4 ∈ t) ∧
    (∃ t, ((Printer.generate_code "toplevel" sampleCode) ⟨0, []⟩).1.file =
      ([] : List String) ++ t ∧
      refcntLine 2 ∈ t ∧ refcntLine 3 ∈ t ∧ refcntLine 4 ∈ t) :=
  emitted_objects_refcnt_sentinel "PyBytes_Type" "b" "u" "toplevel" [1, 2] (toPyStr "hi")
    sampleCode ⟨0, []⟩ ⟨0, []⟩ ⟨0, []⟩ ⟨0, []⟩ (by decide) (by decide)

/-- C5: the code-object initializer's fields appear in exactly this order:
the common header (refcount, type tag), then the scalar metadata fields
copied verbatim in the order flags, argument count, positional-only count,
keyword-only count, stack size, first line number, then the bytecode
reference by symbol, then the name reference by symbol. -/
theorem generate_code_field_order (name : String) (code : CodeType) (p : Printer)
    (h : code.co_name.length = (utf8Encode code.co_name).length) :
    ((Printer.generate_code name code) p).1.file =
      p.file ++ bytesDeclLines (name ++ "_code") code.co_code p.level
        ++ unicodeDeclLines (name ++ "_name") code.co_name p.level
        ++ ([pyIndent p.level ++ "struct PyCodeObject " ++ name ++ " = \x7b"]
            ++ objectHeadLines "PyCode_Type" (p.level + 1)
            ++ [pyIndent (p.level + 1) ++ ".co_flags = " ++ toString code.co_flags ++ ",",
                pyIndent (p.level + 1) ++ ".co_argcount = " ++ toString code.co_argcount ++ ",",
                pyIndent (p.level + 1) ++ ".co_posonlyargcount = "
                  ++ toString code.co_posonlyargcount ++ ",",
                pyIndent (p.level + 1) ++ ".co_kwonlyargcount = "
                  ++ toString code.co_kwonlyargcount ++ ",",
                pyIndent (p.level + 1) ++ ".co_stacksize = " ++ toString code.co_stacksize ++ ",",
                pyIndent (p.level + 1) ++ ".co_firstlineno = "
                  ++ toString code.co_firstlineno ++ ",",
                pyIndent (p.level + 1) ++ ".co_code = (PyObject *) &" ++ name ++ "_code,",
                pyIndent (p.level + 1) ++ ".co_name = (PyObject *) &" ++ name ++ "_name,",
                pyIndent p.level ++ "\x7d;"]) := by
  rw [Printer.generate_code_run name code h]
  simp [codeOwnDeclLines, String.append_assoc, List.append_assoc]

theorem generate_code_field_order_witness :
    ((Printer.generate_code "toplevel" sampleCode) ⟨0, []⟩).1.file =
      ([] : List String) ++ bytesDeclLines "toplevel_code" sampleCode.co_code 0
        ++ unicodeDeclLines "toplevel_name" sampleCode.co_name 0
        ++ ([pyIndent 0 ++ "struct PyCodeObject toplevel = \x7b"]
            ++ objectHeadLines "PyCode_Type" 1
            ++ [pyIndent 1 ++ ".co_flags = 64,",
                pyIndent 1 ++ ".co_argcount = 0,",
                pyIndent 1 ++ ".co_posonlyargcount = 0,",
                pyIndent 1 ++ ".co_kwonlyargcount = 0,",
                pyIndent 1 ++ ".co_stacksize = 1,",
                pyIndent 1 ++ ".co_firstlineno = 1,",
                pyIndent 1 ++ ".co_code = (PyObject *) &toplevel_code,",
                pyIndent 1 ++ ".co_name = (PyObject *) &toplevel_name,",
                pyIndent 0 ++ "\x7d;"]) :=
  generate_code_field_order "toplevel" sampleCode ⟨0, []⟩ (by decide)

/-- C6: for a code object emitted under symbol `N`, the full declaration of
its bytecode buffer under `N_code` and the full declaration of its name
string under `N_name` appear in the output strictly before the code object's
own declaration, and that declaration references exactly those two derived
symbols. -/
theorem generate_code_emission_order (name : String) (code : CodeType) (p : Printer)
    (h : code.co_name.length = (utf8Encode code.co_name).length) :
    ∃ lb lu lc,
      ((Printer.generate_code name code) p).1.file = p.file ++ lb ++ lu ++ lc ∧
      ((Printer.generate_bytes (name ++ "_code") code.co_code) p).1.file = p.file ++ lb ∧
      (∀ q : Printer, q.level = p.level →
        ((Printer.generate_unicode (name ++ "_name") code.co_name) q).1.file = q.file ++ lu) ∧
      (pyIndent (p.level + 1) ++ ".co_code = (PyObject *) &" ++ name ++ "_code,") ∈ lc ∧
      (pyIndent (p.level + 1) ++ ".co_name = (PyObject *) &" ++ name ++ "_name,") ∈ lc := by
  refine ⟨bytesDeclLines (name ++ "_code") code.co_code p.level,
    unicodeDeclLines (name ++ "_name") code.co_name p.level,
    codeOwnDeclLines name code p.level, ?_, ?_, ?_, ?_, ?_⟩
  · rw [Printer.generate_code_run name code h]
  · rw [Printer.generate_bytes_run]
  · intro q hq
    rw [Printer.generate_unicode_run _ _ h, hq]
  · simp [codeOwnDeclLines, String.append_assoc]
  · simp [codeOwnDeclLines, String.append_assoc]

theorem generate_code_emission_order_witness :
    ∃ lb lu lc,
      ((Printer.generate_code "toplevel" sampleCode) ⟨0, []⟩).1.file =
        ([] : List String) ++ lb ++ lu ++ lc ∧
      ((Printer.generate_bytes "toplevel_code" sampleCode.co_code) ⟨0, []⟩).1.file =
        ([] : List String) ++ lb ∧
      (∀ q : Printer, q.level = 0 →
        ((Printer.generate_unicode "toplevel_name" sampleCode.co_name) q).1.file =
          q.file ++ lu) ∧
      (pyIndent 1 ++ ".co_code = (PyObject *) &toplevel_code,") ∈ lc ∧
      (pyIndent 1 ++ ".co_name = (PyObject *) &toplevel_name,") ∈ lc :=
  generate_code_emission_order "toplevel" sampleCode ⟨0, []⟩ (by decide)

/-- C10: on the empty byte sequence the literal encoder takes the verbatim
branch (empty bytes are ASCII and the empty string is printable) and
produces exactly an empty pair of quote delimiters, and `generate_bytes` on
empty content declares the array with size 1 and emits `ob_size = 1` — just
the terminator slot. -/
theorem empty_bytes_literal_and_sizes :
    verbatimCond [] = true ∧
    make_string_literal [] = "\"\"" ∧
    (pyIndent 2 ++ "char ob_sval[1];") ∈ ((Printer.generate_bytes "sym" []) ⟨0, []⟩).1.file ∧
    (pyIndent 2 ++ ".ob_size = 1,") ∈ ((Printer.generate_bytes "sym" []) ⟨0, []⟩).1.file := by
  refine ⟨by decide, by decide, ?_, ?_⟩ <;> decide

/-- Appending strings appends their character lists. -/
theorem string_data_append (a b : String) : (a ++ b).data = a.data ++ b.data := rfl

/-- `Char.ofNat` of a valid code point has that code point. -/
theorem char_toNat_ofNat {n : Nat} (h : n.isValidChar) : (Char.ofNat n).toNat = n := by
  unfold Char.ofNat
  rw [dif_pos h]
  rfl

/-- Code points below the surrogate range are valid. -/
theorem isValidChar_of_lt {n : Nat} (h : n < 55296) : n.isValidChar := Or.inl h

/-- The verbatim branch is taken exactly when every byte is printable ASCII. -/
theorem verbatimCond_iff (b : PyBytes) :
    verbatimCond b = true ↔ ∀ i ∈ b, 32 ≤ i ∧ i ≤ 126 := by
  simp only [verbatimCond, pyBytesIsascii, pyStrIsPrintable, asciiDecode,
    Bool.and_eq_true, List.all_eq_true, List.mem_map, decide_eq_true_eq]
  constructor
  · rintro ⟨hascii, hprint⟩ i hi
    have h128 : i < 128 := hascii i hi
    have h2 := hprint (Char.ofNat i) ⟨i, hi, rfl⟩
    rw [char_toNat_ofNat (isValidChar_of_lt (by omega))] at h2
    exact h2
  · intro h
    refine ⟨fun i hi => by have := h i hi; omega, ?_⟩
    rintro c ⟨i, hi, rfl⟩
    have hr := h i hi
    rw [char_toNat_ofNat (isValidChar_of_lt (by omega))]
    exact hr

/-- Character list of the verbatim-branch literal. -/
theorem make_string_literal_data_verbatim (b : PyBytes) (hv : verbatimCond b = true) :
    (make_string_literal b).data = '"' :: (List.map Char.ofNat b ++ ['"']) := by
  simp [make_string_literal, hv, String.join_eq, asciiDecode]

/-- Character list of the escape-branch literal. -/
theorem make_string_literal_data_escape (b : PyBytes) (hv : verbatimCond b = false) :
    (make_string_literal b).data = '"' :: ((List.map escChunk b).flatten ++ ['"']) := by
  simp only [make_string_literal, hv, Bool.false_eq_true, if_false, String.join_eq]
  have hfun : (String.data ∘ fun i : Nat => "\\x" ++ pyHex02 i) = escChunk := rfl
  simp [List.map_map, hfun]

/-- Each hex digit character produced by `Nat.digitChar` parses back to its
value. -/
theorem hexVal_digitChar : ∀ d, d < 16 → hexVal (Nat.digitChar d) = some d := by decide

/-- `splitHex` munches exactly the two digits of one escape when the next
character is not a hex digit. -/
theorem splitHex_two (d1 d2 c : Char) (cs : List Char)
    (h1 : (hexVal d1).isSome) (h2 : (hexVal d2).isSome) (h3 : hexVal c = none) :
    splitHex (d1 :: d2 :: c :: cs) = ([d1, d2], c :: cs) := by
  simp [splitHex, h1, h2, h3]

/-- The escaped tail (further escapes, or just the closing quote) never
starts with a hex digit, so maximal munch stops at two digits. -/
theorem escTail_head (b : PyBytes) :
    ∃ c cs, (List.map escChunk b).flatten ++ ['"'] = c :: cs ∧ hexVal c = none := by
  cases b with
  | nil => exact ⟨'"', [], rfl, by decide⟩
  | cons i t =>
    refine ⟨'\\', 'x' :: Nat.digitChar (i / 16) :: Nat.digitChar (i % 16) ::
      ((List.map escChunk t).flatten ++ ['"']), ?_, by decide⟩
    simp [escChunk]

/-- A two-digit escape's digits reassemble into the byte value. -/
theorem hexListVal_pair (i : Nat) (h : i < 256) :
    hexListVal [Nat.digitChar (i / 16), Nat.digitChar (i % 16)] = i := by
  have hd : i / 16 < 16 := Nat.div_lt_of_lt_mul (by omega)
  have hm : i % 16 < 16 := Nat.mod_lt _ (by omega)
  simp [hexListVal, hexVal_digitChar _ hd, hexVal_digitChar _ hm]
  omega

/-- Parsing the all-escaped body: every `\xNN` chunk yields its byte. -/
theorem parse_escaped (b : PyBytes) (hb : ∀ i ∈ b, i < 256) :
    ∀ fuel, b.length + 1 ≤ fuel →
      parseLit fuel ((List.map escChunk b).flatten ++ ['"']) = some b := by
  induction b with
  | nil =>
    intro fuel hf
    cases fuel with
    | zero => omega
    | succ f => simp [parseLit]
  | cons i t ih =>
    intro fuel hf
    cases fuel with
    | zero => omega
    | succ f =>
      have hi : i < 256 := hb i (by simp)
      have hd : i / 16 < 16 := Nat.div_lt_of_lt_mul (by omega)
      have hm : i % 16 < 16 := Nat.mod_lt _ (by omega)
      obtain ⟨c0, cs0, heq, hc0⟩ := escTail_head t
      have hsplit := splitHex_two (Nat.digitChar (i / 16)) (Nat.digitChar (i % 16)) c0 cs0
        (by rw [hexVal_digitChar _ hd]; rfl) (by rw [hexVal_digitChar _ hm]; rfl) hc0
      have hflat : (List.map escChunk (i :: t)).flatten ++ ['"'] =
          '\\' :: 'x' :: Nat.digitChar (i / 16) :: Nat.digitChar (i % 16) ::
            ((List.map escChunk t).flatten ++ ['"']) := by
        simp [escChunk]
      rw [hflat, heq]
      simp only [parseLit, reduceIte, hsplit]
      rw [← heq]
      have hf2 : t.length + 1 ≤ f := by
        simp only [List.length_cons] at hf
        omega
      simp [hexListVal_pair i hi, hi, ih (fun j hj => hb j (by simp [hj])) f hf2]

/-- Parsing the verbatim body: each plain character yields its own code. -/
theorem parse_verbatim (cs : List Char) (h : ∀ c ∈ cs, c ≠ '"' ∧ c ≠ '\\') :
    ∀ fuel, cs.length + 1 ≤ fuel →
      parseLit fuel (cs ++ ['"']) = some (List.map Char.toNat cs) := by
  induction cs with
  | nil =>
    intro fuel hf
    cases fuel with
    | zero => omega
    | succ f => simp [parseLit]
  | cons c t ih =>
    intro fuel hf
    cases fuel with
    | zero => omega
    | succ f =>
      have hc := h c (by simp)
      have hf2 : t.length + 1 ≤ f := by
        simp only [List.length_cons] at hf
        omega
      simp [parseLit, hc.1, hc.2, ih (fun x hx => h x (by simp [hx])) f hf2]

/-- Total length of the all-escaped body: four characters per byte. -/
theorem escFlatten_length (b : PyBytes) :
    (List.map escChunk b).flatten.length = 4 * b.length := by
  induction b with
  | nil => rfl
  | cons i t ih =>
    simp [escChunk, ih]
    omega

/-- A string equals the string built from its character list. -/
theorem string_eq_of_data {s : String} {l : List Char} (h : s.data = l) : s = ⟨l⟩ := by
  cases s
  cases h
  rfl

/-- The full literal parse: under the stated side conditions the literal's
content bytes are exactly the input bytes. -/
theorem parseCStringLiteral_make_string_literal (b : PyBytes)
    (hb : ∀ i ∈ b, i < 256)
    (hq : verbatimCond b = true → 34 ∉ b ∧ 92 ∉ b) :
    parseCStringLiteral (make_string_literal b) = some b := by
  cases hv : verbatimCond b with
  | true =>
    obtain ⟨h34, h92⟩ := hq hv
    have hcond := (verbatimCond_iff b).1 hv
    have hdata := make_string_literal_data_verbatim b hv
    have hchars : ∀ c ∈ List.map Char.ofNat b, c ≠ '"' ∧ c ≠ '\\' := by
      intro c hc
      obtain ⟨i, hi, rfl⟩ := List.mem_map.1 hc
      have hlt : i < 128 := by have := hcond i hi; omega
      have htn := char_toNat_ofNat (isValidChar_of_lt (n := i) (by omega))
      constructor
      · intro hcontra
        apply h34
        have : i = 34 := by rw [← htn, hcontra]; rfl
        rwa [this] at hi
      · intro hcontra
        apply h92
        have : i = 92 := by rw [← htn, hcontra]; rfl
        rwa [this] at hi
    simp only [parseCStringLiteral, hdata, reduceIte]
    rw [parse_verbatim _ hchars _ (by simp)]
    have hback : ∀ c ∈ b, Char.toNat (Char.ofNat c) = c := fun i hi =>
      char_toNat_ofNat (isValidChar_of_lt (by have := hcond i hi; omega))
    rw [List.map_map]
    have hmap : List.map (Char.toNat ∘ Char.ofNat) b = List.map id b :=
      List.map_congr_left (fun i hi => hback i hi)
    rw [hmap, List.map_id]
  | false =>
    have hdata := make_string_literal_data_escape b hv
    simp only [parseCStringLiteral, hdata, reduceIte]
    refine parse_escaped b hb _ ?_
    rw [List.length_append, escFlatten_length]
    simp
    omega

/-- C1 counterexample: the byte 0x22 (a double quote) is printable ASCII, so
the encoder emits it verbatim, producing the ill-formed literal text
consisting of three quote characters; no C parse of it yields the byte
followed by a zero terminator. -/
theorem make_string_literal_roundtrip_counterexample :
    cCharArrayInit ([34].length + 1) (make_string_literal [34]) ≠ some ([34] ++ [0]) := by
  decide

/-- C1 (amended): for every byte sequence whose verbatim emission cannot
collide with the host language's quote and backslash metacharacters — that
is, whenever the encoder takes the verbatim branch, the bytes 0x22 and 0x5c
do not occur — parsing the emitted literal under the host C string-literal
rules and storing it in the declared `length + 1` array yields exactly the
bytes followed by one terminator byte of value zero. -/
theorem make_string_literal_roundtrip_amended (b : PyBytes)
    (hb : ∀ i ∈ b, i < 256)
    (hq : verbatimCond b = true → 34 ∉ b ∧ 92 ∉ b) :
    cCharArrayInit (b.length + 1) (make_string_literal b) = some (b ++ [0]) := by
  rw [cCharArrayInit, parseCStringLiteral_make_string_literal b hb hq]
  have hle : b.length ≤ b.length + 1 := by omega
  have hone : b.length + 1 - b.length = 1 := by omega
  simp [hle, hone]

theorem make_string_literal_roundtrip_witness :
    cCharArrayInit ([104, 105].length + 1) (make_string_literal [104, 105]) =
      some ([104, 105] ++ [0]) :=
  make_string_literal_roundtrip_amended [104, 105] (by decide) (by decide)

/-- C2: the literal encoder produces one of exactly two uniform forms — the
bytes verbatim inside quote delimiters when every byte is a printable
single-byte ASCII character, and otherwise every byte as a fixed-width
two-digit hexadecimal escape inside quote delimiters, with no mixing of
verbatim and escaped runs. -/
theorem make_string_literal_uniform_forms (b : PyBytes) :
    make_string_literal b =
      if ∀ i ∈ b, 32 ≤ i ∧ i ≤ 126 then quotedVerbatim b else quotedAllEscaped b := by
  split_ifs with h
  · exact string_eq_of_data (make_string_literal_data_verbatim b ((verbatimCond_iff b).2 h))
  · have hv : verbatimCond b = false := by
      cases hv2 : verbatimCond b with
      | false => rfl
      | true => exact absurd ((verbatimCond_iff b).1 hv2) h
    exact string_eq_of_data (make_string_literal_data_escape b hv)
